import Mathlib

/- Shallow embedding of homework.py, a fitness-tracker module: a base
Training class, three variants (Running, SportsWalking, Swimming), an
InfoMessage record with a formatting method, and a read_package
dispatcher.  Python float arithmetic is modelled over the rationals;
operations that can raise an exception (ZeroDivisionError from true and
floor division, ValueError and TypeError from read_package, TypeError
from formatting a None value) return an Except value. -/

inductive PyErr where
  | zeroDivisionError : PyErr
  | valueError : PyErr
  | typeError : PyErr
deriving DecidableEq

/- Python float floor division a // b: raises ZeroDivisionError when the
divisor is zero, otherwise returns the floor of the real quotient. -/
def floordiv (a b : ℚ) : Except PyErr ℚ :=
  if b = 0 then .error .zeroDivisionError else .ok ((⌊a / b⌋ : ℤ) : ℚ)

/- The InfoMessage dataclass.  Its calories field is annotated float in
the source but receives the result of get_spent_calories, which on the
base class is Python None; the field is therefore modelled as Option. -/
structure InfoMessage where
  training_type : String
  duration : ℚ
  distance : ℚ
  speed : ℚ
  calories : Option ℚ
deriving DecidableEq

/- The base Training class holds the constructor inputs action,
duration (hours) and weight (kg); duration_m is the stored product
duration * MINUTE. -/
structure Training where
  action : ℚ
  duration_h : ℚ
  weight : ℚ
deriving DecidableEq

namespace Training

def LEN_STEP : ℚ := 0.65

def M_IN_KM : ℚ := 1000

def MINUTE : ℚ := 60

def duration_m (t : Training) : ℚ := t.duration_h * MINUTE

def get_distance (t : Training) : ℚ :=
  t.action * LEN_STEP / M_IN_KM

def get_mean_speed (t : Training) : Except PyErr ℚ :=
  if t.duration_h = 0 then .error .zeroDivisionError
  else .ok (t.get_distance / t.duration_h)

/- The base method body is a bare pass statement: the call returns
Python None, it does not raise. -/
def get_spent_calories (_t : Training) : Option ℚ := none

def show_training_info (t : Training) : Except PyErr InfoMessage :=
  match t.get_mean_speed with
  | .error e => .error e
  | .ok speed =>
    .ok ⟨"Training", t.duration_h, t.get_distance, speed, t.get_spent_calories⟩

end Training

structure Running where
  toTraining : Training
deriving DecidableEq

namespace Running

def COEFF_CALORIE_1 : ℚ := 18

def COEFF_CALORIE_2 : ℚ := 20

def get_distance (r : Running) : ℚ := r.toTraining.get_distance

def get_mean_speed (r : Running) : Except PyErr ℚ := r.toTraining.get_mean_speed

def get_spent_calories (r : Running) : Except PyErr ℚ :=
  match r.get_mean_speed with
  | .error e => .error e
  | .ok speed =>
    let temp1 := COEFF_CALORIE_1 * speed
    let temp2 := temp1 - COEFF_CALORIE_2
    .ok (temp2 * r.toTraining.weight / Training.M_IN_KM * r.toTraining.duration_m)

def show_training_info (r : Running) : Except PyErr InfoMessage :=
  match r.get_mean_speed with
  | .error e => .error e
  | .ok speed =>
    match r.get_spent_calories with
    | .error e => .error e
    | .ok calories =>
      .ok ⟨"Running", r.toTraining.duration_h, r.get_distance, speed, some calories⟩

end Running

structure SportsWalking where
  toTraining : Training
  height : ℚ
deriving DecidableEq

namespace SportsWalking

def COEFF_CALORIE_1 : ℚ := 0.035

def COEFF_CALORIE_2 : ℚ := 0.029

def get_distance (w : SportsWalking) : ℚ := w.toTraining.get_distance

def get_mean_speed (w : SportsWalking) : Except PyErr ℚ := w.toTraining.get_mean_speed

def get_spent_calories (w : SportsWalking) : Except PyErr ℚ :=
  let part_1 := COEFF_CALORIE_1 * w.toTraining.weight
  match w.get_mean_speed with
  | .error e => .error e
  | .ok speed =>
    match floordiv (speed ^ 2) w.height with
    | .error e => .error e
    | .ok part_2 =>
      let part_3 := COEFF_CALORIE_2 * w.toTraining.weight
      .ok ((part_1 + part_2 * part_3) * w.toTraining.duration_m)

def show_training_info (w : SportsWalking) : Except PyErr InfoMessage :=
  match w.get_mean_speed with
  | .error e => .error e
  | .ok speed =>
    match w.get_spent_calories with
    | .error e => .error e
    | .ok calories =>
      .ok ⟨"SportsWalking", w.toTraining.duration_h, w.get_distance, speed,
        some calories⟩

end SportsWalking

structure Swimming where
  toTraining : Training
  length_pool : ℚ
  count_pool : ℚ
deriving DecidableEq

namespace Swimming

def LEN_STEP : ℚ := 1.38

def COEFF_CALORIE_1 : ℚ := 1.1

/- Training.get_distance reads self.LEN_STEP, which dynamic dispatch
resolves to the Swimming override 1.38. -/
def get_distance (s : Swimming) : ℚ :=
  s.toTraining.action * LEN_STEP / Training.M_IN_KM

def get_mean_speed (s : Swimming) : Except PyErr ℚ :=
  if s.toTraining.duration_h = 0 then .error .zeroDivisionError
  else .ok (s.length_pool * s.count_pool / Training.M_IN_KM / s.toTraining.duration_h)

def get_spent_calories (s : Swimming) : Except PyErr ℚ :=
  match s.get_mean_speed with
  | .error e => .error e
  | .ok speed => .ok ((speed + COEFF_CALORIE_1) * 2 * s.toTraining.weight)

def show_training_info (s : Swimming) : Except PyErr InfoMessage :=
  match s.get_mean_speed with
  | .error e => .error e
  | .ok speed =>
    match s.get_spent_calories with
    | .error e => .error e
    | .ok calories =>
      .ok ⟨"Swimming", s.toTraining.duration_h, s.get_distance, speed,
        some calories⟩

end Swimming

/- The closed set of variants the dispatcher can construct. -/
inductive TrainingInstance where
  | running : Running → TrainingInstance
  | sportsWalking : SportsWalking → TrainingInstance
  | swimming : Swimming → TrainingInstance
deriving DecidableEq

/- read_package(workout_type, data, raise_exceptions): unknown code
raises ValueError in default mode and returns None when
raise_exceptions is False; a known code calls the variant constructor
with the data unpacked positionally, which raises TypeError when the
argument count does not match the constructor arity. -/
def read_package (workout_type : String) (data : List ℚ)
    (raise_exceptions : Bool) : Except PyErr (Option TrainingInstance) :=
  if workout_type = "RUN" then
    match data with
    | [a, d, w] => .ok (some (.running ⟨⟨a, d, w⟩⟩))
    | _ => .error .typeError
  else if workout_type = "SWM" then
    match data with
    | [a, d, w, lp, cp] => .ok (some (.swimming ⟨⟨a, d, w⟩, lp, cp⟩))
    | _ => .error .typeError
  else if workout_type = "WLK" then
    match data with
    | [a, d, w, h] => .ok (some (.sportsWalking ⟨⟨a, d, w⟩, h⟩))
    | _ => .error .typeError
  else if raise_exceptions then .error .valueError
  else .ok none

/- Decimal digit character for n mod 10. -/
def decDigit (n : ℕ) : Char := Char.ofNat (48 + n % 10)

/- Three-character zero-padded decimal rendering of n mod 1000. -/
def pad3 (n : ℕ) : String :=
  String.mk [decDigit (n / 100), decDigit (n / 10), decDigit n]

/- Rounding to the nearest integer, ties to even, as Python float
formatting does. -/
def roundHalfEven (q : ℚ) : ℤ :=
  let f := ⌊q⌋
  let r := q - (f : ℚ)
  if r < 1 / 2 then f
  else if 1 / 2 < r then f + 1
  else if f % 2 = 0 then f else f + 1

/- Fixed-point rendering with exactly three digits after the point,
the meaning of a .3f placeholder. -/
def formatFixed3 (q : ℚ) : String :=
  let n := roundHalfEven (q * 1000)
  (if n < 0 then "-" else "") ++ toString (n.natAbs / 1000) ++ "." ++
    pad3 (n.natAbs % 1000)

namespace InfoMessage

/- MESSAGE_TEMPLATE.format(...) with the five fields substituted; the
placeholders for the four numeric fields carry a .3f conversion.
Formatting a None calories value raises TypeError. -/
def get_message (m : InfoMessage) : Except PyErr String :=
  match m.calories with
  | none => .error .typeError
  | some c =>
    .ok ("Тип тренировки: " ++ m.training_type ++ "; Длительность: " ++
      formatFixed3 m.duration ++ " ч.; Дистанция: " ++ formatFixed3 m.distance ++
      " км; Ср. скорость: " ++ formatFixed3 m.speed ++ " км/ч; Потрачено ккал: " ++
      formatFixed3 c ++ ".")

end InfoMessage

/-- C1 counterexample: for Running(action=15000, duration=1, weight=75) the
code returns 699.75 spent calories, not the 638.25 the claim states. -/
theorem running_example_calories_ne_spec :
    Running.get_spent_calories ⟨⟨15000, 1, 75⟩⟩ = .ok 699.75 ∧
      Running.get_spent_calories ⟨⟨15000, 1, 75⟩⟩ ≠ .ok 638.25 := by
  constructor
  · norm_num [Running.get_spent_calories, Running.get_mean_speed,
      Training.get_mean_speed, Training.get_distance, Training.duration_m,
      Training.LEN_STEP, Training.M_IN_KM, Training.MINUTE,
      Running.COEFF_CALORIE_1, Running.COEFF_CALORIE_2]
  · norm_num [Running.get_spent_calories, Running.get_mean_speed,
      Training.get_mean_speed, Training.get_distance, Training.duration_m,
      Training.LEN_STEP, Training.M_IN_KM, Training.MINUTE,
      Running.COEFF_CALORIE_1, Running.COEFF_CALORIE_2]

/-- C1 (amended): for Running(action=15000, duration=1, weight=75),
get_distance returns 9.75 km, get_mean_speed returns 9.75 km/h and
get_spent_calories returns 699.75. -/
theorem running_example_values :
    Running.get_distance ⟨⟨15000, 1, 75⟩⟩ = 9.75 ∧
      Running.get_mean_speed ⟨⟨15000, 1, 75⟩⟩ = .ok 9.75 ∧
      Running.get_spent_calories ⟨⟨15000, 1, 75⟩⟩ = .ok 699.75 := by
  refine ⟨?_, ?_, ?_⟩ <;>
    norm_num [Running.get_distance, Running.get_spent_calories,
      Running.get_mean_speed, Training.get_mean_speed, Training.get_distance,
      Training.duration_m, Training.LEN_STEP, Training.M_IN_KM,
      Training.MINUTE, Running.COEFF_CALORIE_1, Running.COEFF_CALORIE_2]

/-- C2: for every Running session with positive duration, get_spent_calories
returns (18 * mean_speed - 20) * weight / 1000 * (duration * 60), where
mean_speed is the base formula action * 0.65 / 1000 / duration. -/
theorem running_calories_formula (a d w : ℚ) (hd : 0 < d) :
    Running.get_spent_calories ⟨⟨a, d, w⟩⟩ =
      .ok ((18 * (a * 0.65 / 1000 / d) - 20) * w / 1000 * (d * 60)) := by
  have hd0 : d ≠ 0 := ne_of_gt hd
  simp [Running.get_spent_calories, Running.get_mean_speed,
    Training.get_mean_speed, Training.get_distance, Training.duration_m,
    Training.LEN_STEP, Training.M_IN_KM, Training.MINUTE,
    Running.COEFF_CALORIE_1, Running.COEFF_CALORIE_2, hd0]

/-- C2 witness: the formula instantiated at action 15000, duration 1,
weight 75. -/
theorem running_calories_formula_witness :
    Running.get_spent_calories ⟨⟨15000, 1, 75⟩⟩ =
      .ok ((18 * ((15000 : ℚ) * 0.65 / 1000 / 1) - 20) * 75 / 1000 * (1 * 60)) :=
  running_calories_formula 15000 1 75 (by norm_num)

/-- C7: for each of the three variants, get_distance times 1000 divided by
the step length of the variant recovers the action count exactly, and
Swimming's get_mean_speed does not depend on the action count. -/
theorem distance_roundtrip_and_speed_independence
    (a d w h lp cp a1 a2 : ℚ) :
    Running.get_distance ⟨⟨a, d, w⟩⟩ * 1000 / 0.65 = a ∧
      SportsWalking.get_distance ⟨⟨a, d, w⟩, h⟩ * 1000 / 0.65 = a ∧
      Swimming.get_distance ⟨⟨a, d, w⟩, lp, cp⟩ * 1000 / 1.38 = a ∧
      Swimming.get_mean_speed ⟨⟨a1, d, w⟩, lp, cp⟩ =
        Swimming.get_mean_speed ⟨⟨a2, d, w⟩, lp, cp⟩ := by
  refine ⟨?_, ?_, ?_, rfl⟩ <;>
    · simp only [Running.get_distance, SportsWalking.get_distance,
        Swimming.get_distance, Training.get_distance, Training.LEN_STEP,
        Training.M_IN_KM, Swimming.LEN_STEP]
      norm_num

/-- C10: Running calories are not guaranteed non-negative: the input with
action 0, duration 1 and weight 75 satisfies the stated constraints and
get_spent_calories returns the strictly negative value -90. -/
theorem running_calories_can_be_negative :
    (0 : ℚ) ≤ 0 ∧ (0 : ℚ) < 1 ∧ (0 : ℚ) < 75 ∧
      Running.get_spent_calories ⟨⟨0, 1, 75⟩⟩ = .ok (-90) ∧ (-90 : ℚ) < 0 := by
  refine ⟨le_refl 0, by norm_num, by norm_num, ?_, by norm_num⟩
  norm_num [Running.get_spent_calories, Running.get_mean_speed,
    Training.get_mean_speed, Training.get_distance, Training.duration_m,
    Training.LEN_STEP, Training.M_IN_KM, Training.MINUTE,
    Running.COEFF_CALORIE_1, Running.COEFF_CALORIE_2]

/-- C3: for every SportsWalking session with positive duration and height,
get_spent_calories returns (0.035 * weight + floor(speed^2 / height) *
0.029 * weight) * (duration * 60) with integer-truncating division of the
squared speed by the height; and the example SportsWalking(9000, 1, 75, 180)
yields distance 5.85 km, speed 5.85 km/h and calories 157.5. -/
theorem walking_calories_formula (a d w h : ℚ) (hd : 0 < d) (hh : 0 < h) :
    SportsWalking.get_spent_calories ⟨⟨a, d, w⟩, h⟩ =
      .ok ((0.035 * w +
          ((⌊(a * 0.65 / 1000 / d) ^ 2 / h⌋ : ℤ) : ℚ) * 0.029 * w) * (d * 60)) ∧
      SportsWalking.get_distance ⟨⟨9000, 1, 75⟩, 180⟩ = 5.85 ∧
      SportsWalking.get_mean_speed ⟨⟨9000, 1, 75⟩, 180⟩ = .ok 5.85 ∧
      SportsWalking.get_spent_calories ⟨⟨9000, 1, 75⟩, 180⟩ = .ok 157.5 := by
  have hd0 : d ≠ 0 := ne_of_gt hd
  have hh0 : h ≠ 0 := ne_of_gt hh
  refine ⟨?_, ?_, ?_, ?_⟩
  · simp only [SportsWalking.get_spent_calories, SportsWalking.get_mean_speed,
      Training.get_mean_speed, Training.get_distance, Training.duration_m,
      Training.LEN_STEP, Training.M_IN_KM, Training.MINUTE,
      SportsWalking.COEFF_CALORIE_1, SportsWalking.COEFF_CALORIE_2, floordiv,
      if_neg hd0, if_neg hh0]
    norm_num
    ring_nf
    exact Or.inl trivial
  · norm_num [SportsWalking.get_distance, Training.get_distance,
      Training.LEN_STEP, Training.M_IN_KM]
  · norm_num [SportsWalking.get_mean_speed, Training.get_mean_speed,
      Training.get_distance, Training.LEN_STEP, Training.M_IN_KM]
  · norm_num [SportsWalking.get_spent_calories, SportsWalking.get_mean_speed,
      Training.get_mean_speed, Training.get_distance, Training.duration_m,
      Training.LEN_STEP, Training.M_IN_KM, Training.MINUTE,
      SportsWalking.COEFF_CALORIE_1, SportsWalking.COEFF_CALORIE_2, floordiv]

/-- C3 witness: the calorie value of the example instance, obtained from the
general theorem at action 9000, duration 1, weight 75, height 180. -/
theorem walking_calories_formula_witness :
    SportsWalking.get_spent_calories ⟨⟨9000, 1, 75⟩, 180⟩ = .ok 157.5 :=
  (walking_calories_formula 9000 1 75 180 (by norm_num) (by norm_num)).2.2.2

/-- C4: for every Swimming session with positive duration, get_mean_speed
returns length_pool * count_pool / 1000 / duration (no dependence on the
action count), get_distance returns action * 1.38 / 1000, and
get_spent_calories returns (mean_speed + 1.1) * 2 * weight with no duration
factor; and the example Swimming(720, 1, 80, 25, 40) yields distance
0.9936 km, speed 1.0 km/h and calories 336.0. -/
theorem swimming_formulas (a d w lp cp : ℚ) (hd : 0 < d) :
    Swimming.get_mean_speed ⟨⟨a, d, w⟩, lp, cp⟩ = .ok (lp * cp / 1000 / d) ∧
      Swimming.get_distance ⟨⟨a, d, w⟩, lp, cp⟩ = a * 1.38 / 1000 ∧
      Swimming.get_spent_calories ⟨⟨a, d, w⟩, lp, cp⟩ =
        .ok ((lp * cp / 1000 / d + 1.1) * 2 * w) ∧
      Swimming.get_distance ⟨⟨720, 1, 80⟩, 25, 40⟩ = 0.9936 ∧
      Swimming.get_mean_speed ⟨⟨720, 1, 80⟩, 25, 40⟩ = .ok 1 ∧
      Swimming.get_spent_calories ⟨⟨720, 1, 80⟩, 25, 40⟩ = .ok 336 := by
  have hd0 : d ≠ 0 := ne_of_gt hd
  refine ⟨?_, ?_, ?_, ?_, ?_, ?_⟩
  · simp [Swimming.get_mean_speed, Training.M_IN_KM, hd0]
  · simp [Swimming.get_distance, Swimming.LEN_STEP, Training.M_IN_KM]
  · simp [Swimming.get_spent_calories, Swimming.get_mean_speed,
      Swimming.COEFF_CALORIE_1, Training.M_IN_KM, hd0]
  · norm_num [Swimming.get_distance, Swimming.LEN_STEP, Training.M_IN_KM]
  · norm_num [Swimming.get_mean_speed, Training.M_IN_KM]
  · norm_num [Swimming.get_spent_calories, Swimming.get_mean_speed,
      Swimming.COEFF_CALORIE_1, Training.M_IN_KM]

/-- C4 witness: the calorie value of the example instance, obtained from the
general theorem at action 720, duration 1, weight 80, pool length 25, lap
count 40. -/
theorem swimming_formulas_witness :
    Swimming.get_spent_calories ⟨⟨720, 1, 80⟩, 25, 40⟩ = .ok 336 :=
  (swimming_formulas 720 1 80 25 40 (by norm_num)).2.2.2.2.2

/-- C5: for every activity code outside RUN, SWM, WLK, read_package raises
ValueError in default mode and returns None when raise_exceptions is False;
for codes in the set it constructs the corresponding variant from the
positional data. -/
theorem read_package_dispatch (code : String) (data : List ℚ)
    (h1 : code ≠ "RUN") (h2 : code ≠ "SWM") (h3 : code ≠ "WLK") :
    read_package code data true = .error .valueError ∧
      read_package code data false = .ok none ∧
      (∀ (b : Bool) (a d w lp cp hh : ℚ),
        read_package "RUN" [a, d, w] b = .ok (some (.running ⟨⟨a, d, w⟩⟩)) ∧
        read_package "SWM" [a, d, w, lp, cp] b =
          .ok (some (.swimming ⟨⟨a, d, w⟩, lp, cp⟩)) ∧
        read_package "WLK" [a, d, w, hh] b =
          .ok (some (.sportsWalking ⟨⟨a, d, w⟩, hh⟩))) := by
  refine ⟨?_, ?_, ?_⟩
  · simp [read_package, h1, h2, h3]
  · simp [read_package, h1, h2, h3]
  · intro b a d w lp cp hh
    refine ⟨?_, ?_, ?_⟩ <;> simp [read_package]

/-- C5 witness: the dispatcher at the unknown code XYZ in both modes. -/
theorem read_package_dispatch_witness :
    read_package "XYZ" [] true = .error .valueError ∧
      read_package "XYZ" [] false = .ok none :=
  ⟨(read_package_dispatch "XYZ" [] (by decide) (by decide) (by decide)).1,
    (read_package_dispatch "XYZ" [] (by decide) (by decide) (by decide)).2.1⟩

/-- C6 counterexample: SportsWalking with height 0 has positive duration 1,
yet get_spent_calories raises ZeroDivisionError from the floor division by
the height, so positive duration alone does not make every variant's
get_spent_calories succeed. -/
theorem walking_zero_height_division_error :
    (0 : ℚ) < 1 ∧
      SportsWalking.get_spent_calories ⟨⟨0, 1, 75⟩, 0⟩ =
        .error .zeroDivisionError := by
  refine ⟨by norm_num, ?_⟩
  norm_num [SportsWalking.get_spent_calories, SportsWalking.get_mean_speed,
    Training.get_mean_speed, Training.get_distance, Training.LEN_STEP,
    Training.M_IN_KM, floordiv]

/-- C6 (amended): get_mean_speed fails with ZeroDivisionError exactly when
duration is 0; and when duration is positive, the base and Swimming
get_mean_speed and the get_spent_calories of all three variants succeed,
provided additionally that the SportsWalking height is nonzero. -/
theorem division_safety (a d w h lp cp : ℚ) (hd : 0 < d) (hh : h ≠ 0) :
    (∀ a0 d0 w0 : ℚ,
        Training.get_mean_speed ⟨a0, d0, w0⟩ = .error .zeroDivisionError ↔
          d0 = 0) ∧
      (∃ v, Training.get_mean_speed ⟨a, d, w⟩ = .ok v) ∧
      (∃ v, Swimming.get_mean_speed ⟨⟨a, d, w⟩, lp, cp⟩ = .ok v) ∧
      (∃ v, Running.get_spent_calories ⟨⟨a, d, w⟩⟩ = .ok v) ∧
      (∃ v, SportsWalking.get_spent_calories ⟨⟨a, d, w⟩, h⟩ = .ok v) ∧
      (∃ v, Swimming.get_spent_calories ⟨⟨a, d, w⟩, lp, cp⟩ = .ok v) := by
  have hd0 : d ≠ 0 := ne_of_gt hd
  refine ⟨?_, ?_, ?_, ?_, ?_, ?_⟩
  · intro a0 d0 w0
    by_cases h0 : d0 = 0 <;> simp [Training.get_mean_speed, h0]
  · simp only [Training.get_mean_speed, if_neg hd0]
    exact ⟨_, rfl⟩
  · simp only [Swimming.get_mean_speed, if_neg hd0]
    exact ⟨_, rfl⟩
  · simp only [Running.get_spent_calories, Running.get_mean_speed,
      Training.get_mean_speed, if_neg hd0]
    exact ⟨_, rfl⟩
  · simp only [SportsWalking.get_spent_calories, SportsWalking.get_mean_speed,
      Training.get_mean_speed, floordiv, if_neg hd0, if_neg hh]
    exact ⟨_, rfl⟩
  · simp only [Swimming.get_spent_calories, Swimming.get_mean_speed,
      if_neg hd0]
    exact ⟨_, rfl⟩

/-- C6 witness: the SportsWalking example instance, with duration 1 and
height 180, has a successful calorie computation. -/
theorem division_safety_witness :
    ∃ v, SportsWalking.get_spent_calories ⟨⟨9000, 1, 75⟩, 180⟩ = .ok v :=
  (division_safety 9000 1 75 180 25 40 (by norm_num) (by norm_num)).2.2.2.2.1

/-- C9: on the base Training class, get_spent_calories returns None without
raising; hence show_training_info on a base instance with positive duration
succeeds and its record carries no calorie number. -/
theorem base_training_calories_none (t : Training) (hd : 0 < t.duration_h) :
    t.get_spent_calories = none ∧
      ∃ msg, t.show_training_info = .ok msg ∧ msg.calories = none := by
  have hd0 : t.duration_h ≠ 0 := ne_of_gt hd
  refine ⟨rfl, ⟨"Training", t.duration_h, t.get_distance,
    t.get_distance / t.duration_h, none⟩, ?_, rfl⟩
  simp [Training.show_training_info, Training.get_mean_speed, hd0,
    Training.get_spent_calories]

/-- C9 witness: the base instance with action 0, duration 1, weight 75. -/
theorem base_training_calories_none_witness :
    Training.get_spent_calories ⟨0, 1, 75⟩ = none ∧
      ∃ msg, Training.show_training_info ⟨0, 1, 75⟩ = .ok msg ∧
        msg.calories = none :=
  base_training_calories_none ⟨0, 1, 75⟩ (by norm_num)

theorem decDigit_isDigit (n : ℕ) : (decDigit n).isDigit = true := by
  have h : n % 10 < 10 := Nat.mod_lt _ (by norm_num)
  have hall : ∀ r < 10, (Char.ofNat (48 + r)).isDigit = true := by decide
  exact hall _ h

theorem pad3_length (n : ℕ) : (pad3 n).length = 3 := rfl

theorem pad3_digits (n : ℕ) : (pad3 n).toList.all Char.isDigit = true := by
  simp [pad3, String.toList, decDigit_isDigit]

/-- C8: get_message of a record with a numeric calorie field returns the
template line with the five fields substituted, the four numeric ones
rendered fixed-point; and every fixed-point rendering ends in a point
followed by exactly three decimal digits, whatever the magnitude of the
value. -/
theorem get_message_format (m : InfoMessage) (c q : ℚ) (h : m.calories = some c) :
    m.get_message =
      .ok ("Тип тренировки: " ++ m.training_type ++ "; Длительность: " ++
        formatFixed3 m.duration ++ " ч.; Дистанция: " ++
        formatFixed3 m.distance ++ " км; Ср. скорость: " ++
        formatFixed3 m.speed ++ " км/ч; Потрачено ккал: " ++
        formatFixed3 c ++ ".") ∧
      (∃ pre post : String, formatFixed3 q = pre ++ "." ++ post ∧
        post.length = 3 ∧ post.toList.all Char.isDigit = true) := by
  constructor
  · simp [InfoMessage.get_message, h]
  · refine ⟨(if roundHalfEven (q * 1000) < 0 then "-" else "") ++
      toString ((roundHalfEven (q * 1000)).natAbs / 1000),
      pad3 ((roundHalfEven (q * 1000)).natAbs % 1000), ?_,
      pad3_length _, pad3_digits _⟩
    simp [formatFixed3, String.append_assoc]

/-- C8 witness: the fixed-point rendering of 699.75 in the example record
line ends in a point followed by three decimal digits. -/
theorem get_message_format_witness :
    ∃ pre post : String, formatFixed3 699.75 = pre ++ "." ++ post ∧
      post.length = 3 ∧ post.toList.all Char.isDigit = true :=
  (get_message_format ⟨"Running", 1, 9.75, 9.75, some 699.75⟩ 699.75 699.75
    rfl).2
